import Mathlib

/-!
Shallow embedding of the loan-amortization core of the `creditos` Django
application (`src/creditos/models.py`, `src/creditos/forms.py`,
`src/creditos/views.py`).

Modelling conventions:
* Python `Decimal` values are modelled as exact rationals (`ℚ`);
  `value.quantize(Decimal('0.01'))` under the context's default rounding
  (`ROUND_HALF_EVEN`) is modelled by `quantize2` (round to a multiple of
  1/100, ties to even).
* `datetime.date` is modelled by the structure `Fecha`;
  `dateutil.relativedelta(months=1)` by `addOneMonth` (advance one month,
  clamping the day to the length of the target month).
* `date.today()` is an explicit parameter (`hoy`).
* Django form validation (`AmortizacionForm.clean`,
  `AmortizacionForm.clean_fecha_pago_real`) is modelled as pure functions
  over an explicit database context (`FormCtx`); an invalid form means the
  view never calls `save`, so the stored row is returned unchanged.
* Fallible paths (Python `None` propagating into arithmetic) are modelled
  with `Option`: `generarAmortizacion` is `none` exactly on the degenerate
  inputs (zero amount, zero rate or zero term) on which the Python
  generator has no well-defined schedule.
-/

unseal Rat.add Rat.mul Rat.inv Rat.sub

/-- Round a rational to the nearest integer, ties to even: the behaviour of
Python `Decimal`'s default rounding mode `ROUND_HALF_EVEN`. -/
def roundHalfEven (x : ℚ) : ℤ :=
  if x - (⌊x⌋ : ℚ) < 1/2 then ⌊x⌋
  else if 1/2 < x - (⌊x⌋ : ℚ) then ⌊x⌋ + 1
  else if ⌊x⌋ % 2 = 0 then ⌊x⌋ else ⌊x⌋ + 1

/-- `value.quantize(Decimal('0.01'))`: round to two decimal places,
ties to even. -/
def quantize2 (x : ℚ) : ℚ := (roundHalfEven (x * 100) : ℚ) / 100

/-- A rational is representable in 2-decimal fixed point (an exact multiple
of 0.01), as all stored monetary columns are (`max_digits=12,
decimal_places=2`). -/
def Cents (x : ℚ) : Prop := (x * 100).den = 1

instance (x : ℚ) : Decidable (Cents x) :=
  inferInstanceAs (Decidable ((x * 100).den = 1))

lemma cents_iff {x : ℚ} : Cents x ↔ ∃ m : ℤ, x = (m : ℚ) / 100 := by
  unfold Cents
  constructor
  · intro h
    refine ⟨(x * 100).num, ?_⟩
    have h2 : ((x * 100).num : ℚ) = x * 100 := by
      conv_rhs => rw [← Rat.num_div_den (x * 100)]
      rw [h]
      norm_num
    rw [h2]
    exact (mul_div_cancel_right₀ x (by norm_num : (100 : ℚ) ≠ 0)).symm
  · rintro ⟨m, rfl⟩
    have h3 : (m : ℚ) / 100 * 100 = (m : ℚ) := by
      exact div_mul_cancel₀ _ (by norm_num : (100 : ℚ) ≠ 0)
    rw [h3]
    exact Rat.den_intCast m

lemma roundHalfEven_intCast (m : ℤ) : roundHalfEven (m : ℚ) = m := by
  unfold roundHalfEven
  rw [Int.floor_intCast]
  norm_num

lemma roundHalfEven_zero : roundHalfEven 0 = 0 := by
  have h := roundHalfEven_intCast 0
  simpa using h

lemma roundHalfEven_le (x : ℚ) : roundHalfEven x ≤ ⌊x⌋ + 1 := by
  unfold roundHalfEven
  split_ifs <;> omega

lemma le_roundHalfEven (x : ℚ) : ⌊x⌋ ≤ roundHalfEven x := by
  unfold roundHalfEven
  split_ifs <;> omega

lemma roundHalfEven_mono {x y : ℚ} (hxy : x ≤ y) :
    roundHalfEven x ≤ roundHalfEven y := by
  have hf : ⌊x⌋ ≤ ⌊y⌋ := Int.floor_mono hxy
  rcases lt_or_eq_of_le hf with hlt | heq
  · have h1 := roundHalfEven_le x
    have h2 := le_roundHalfEven y
    omega
  · have hx1 : x - (⌊x⌋ : ℚ) ≤ y - (⌊y⌋ : ℚ) := by
      rw [← heq]
      linarith
    unfold roundHalfEven
    rw [← heq]
    rw [← heq] at hx1
    split_ifs <;> first | omega | linarith

lemma quantize2_mono {x y : ℚ} (h : x ≤ y) : quantize2 x ≤ quantize2 y := by
  unfold quantize2
  have h1 : roundHalfEven (x * 100) ≤ roundHalfEven (y * 100) :=
    roundHalfEven_mono (by linarith)
  have h2 : ((roundHalfEven (x * 100) : ℤ) : ℚ) ≤ ((roundHalfEven (y * 100) : ℤ) : ℚ) := by
    exact_mod_cast h1
  linarith

lemma quantize2_zero : quantize2 0 = 0 := by
  unfold quantize2
  rw [zero_mul, roundHalfEven_zero]
  norm_num

lemma quantize2_nonneg {x : ℚ} (h : 0 ≤ x) : 0 ≤ quantize2 x := by
  have h2 := quantize2_mono h
  rwa [quantize2_zero] at h2

lemma cents_quantize2 (x : ℚ) : Cents (quantize2 x) :=
  cents_iff.mpr ⟨roundHalfEven (x * 100), rfl⟩

lemma quantize2_eq_self {x : ℚ} (h : Cents x) : quantize2 x = x := by
  obtain ⟨m, rfl⟩ := cents_iff.mp h
  unfold quantize2
  rw [div_mul_cancel₀ _ (by norm_num : (100 : ℚ) ≠ 0), roundHalfEven_intCast]

lemma cents_sub {x y : ℚ} (hx : Cents x) (hy : Cents y) : Cents (x - y) := by
  obtain ⟨a, rfl⟩ := cents_iff.mp hx
  obtain ⟨b, rfl⟩ := cents_iff.mp hy
  refine cents_iff.mpr ⟨a - b, ?_⟩
  push_cast
  ring

/-! ## Calendar dates

`datetime.date` values; only what `relativedelta(months=1)` and the date
comparisons in the forms need. -/

/-- A calendar date (`datetime.date`). -/
structure Fecha where
  year : ℕ
  month : ℕ
  day : ℕ
deriving DecidableEq, Repr

/-- Gregorian leap-year rule. -/
def esBisiesto (y : ℕ) : Bool :=
  y % 4 == 0 && (y % 100 != 0 || y % 400 == 0)

/-- Number of days of month `m` of year `y`. -/
def diasEnMes (y m : ℕ) : ℕ :=
  if m = 2 then (if esBisiesto y then 29 else 28)
  else if m = 4 ∨ m = 6 ∨ m = 9 ∨ m = 11 then 30
  else 31

/-- `fecha + relativedelta(months=1)`: advance one calendar month, clamping
the day to the length of the target month (dateutil semantics). -/
def addOneMonth (d : Fecha) : Fecha :=
  { year := if d.month = 12 then d.year + 1 else d.year
    month := if d.month = 12 then 1 else d.month + 1
    day := min d.day (diasEnMes (if d.month = 12 then d.year + 1 else d.year)
                                (if d.month = 12 then 1 else d.month + 1)) }

/-- Strict chronological order on dates (lexicographic on year, month, day),
matching Python `datetime.date` comparison. -/
def fechaLt (a b : Fecha) : Bool :=
  decide (a.year < b.year) ||
    (decide (a.year = b.year) &&
      (decide (a.month < b.month) ||
        (decide (a.month = b.month) && decide (a.day < b.day))))

/-! ## The loan model (`src/creditos/models.py`) -/

/-- The `Prestamo` model: only the fields the amortization algorithm and the
payment validation read.  `monto` and `tasa_interes_anual` are `Decimal`
columns with two decimal places, `plazo` a positive integer. -/
structure Prestamo where
  monto : ℚ
  tasaInteresAnual : ℚ
  fechaInicio : Fecha
  plazo : ℕ
deriving DecidableEq, Repr

/-- `Prestamo.tasa_mensual`: `tasa_interes_anual / 12 / 100`.  (The Python
property returns `None` only for an unsaved instance whose field is `NULL`;
persisted loans always have the field set.) -/
def tasaMensual (p : Prestamo) : ℚ :=
  p.tasaInteresAnual / 12 / 100

/-- `Prestamo.cuota_mensual`: the fixed monthly payment (French method).
Returns `none` when any of `monto`, `tasa_interes_anual`, `plazo` is falsy
(zero), mirroring the `all([...])` guard; otherwise the annuity formula
quantized to two decimals. -/
def cuotaMensual (p : Prestamo) : Option ℚ :=
  if p.monto = 0 ∨ p.tasaInteresAnual = 0 ∨ p.plazo = 0 then none
  else if tasaMensual p = 0 then some (p.monto / (p.plazo : ℚ))
  else some (quantize2 (p.monto * (tasaMensual p * (1 + tasaMensual p) ^ p.plazo) /
    ((1 + tasaMensual p) ^ p.plazo - 1)))

/-- A row of the `Amortizacion` table, as created by
`Prestamo.generar_amortizacion` (`pagado` defaults to `False`,
`fecha_pago_real` to `NULL`). -/
structure Amortizacion where
  numeroCuota : ℕ
  fechaPago : Fecha
  cuota : ℚ
  capital : ℚ
  interes : ℚ
  saldo : ℚ
  pagado : Bool
  fechaPagoReal : Option Fecha
deriving DecidableEq, Repr

/-- The capital portion of period `numero` given the running balance
`saldo`: the full balance in the final period, else
`(cuota - interes).quantize('0.01')`. -/
def capitalDe (p : Prestamo) (cuota : ℚ) (numero : ℕ) (saldo : ℚ) : ℚ :=
  if numero = p.plazo then saldo
  else quantize2 (cuota - quantize2 (saldo * tasaMensual p))

/-- The balance after period `numero`:
`(saldo - capital).quantize('0.01')`, clamped to `0` if negative. -/
def nuevoSaldo (p : Prestamo) (cuota : ℚ) (numero : ℕ) (saldo : ℚ) : ℚ :=
  if quantize2 (saldo - capitalDe p cuota numero saldo) < 0 then 0
  else quantize2 (saldo - capitalDe p cuota numero saldo)

/-- The loop body of `Prestamo.generar_amortizacion`: `rem` iterations left,
current period number `numero`, running balance `saldo`, previous due date
`fecha` (advanced by one month at the top of each iteration). -/
def genAux (p : Prestamo) (cuota : ℚ) : ℕ → ℕ → ℚ → Fecha → List Amortizacion
  | 0, _, _, _ => []
  | rem + 1, numero, saldo, fecha =>
    { numeroCuota := numero
      fechaPago := addOneMonth fecha
      cuota := if numero = p.plazo
        then capitalDe p cuota numero saldo + quantize2 (saldo * tasaMensual p)
        else cuota
      capital := capitalDe p cuota numero saldo
      interes := quantize2 (saldo * tasaMensual p)
      saldo := nuevoSaldo p cuota numero saldo
      pagado := false
      fechaPagoReal := none } ::
    genAux p cuota rem (numero + 1) (nuevoSaldo p cuota numero saldo) (addOneMonth fecha)

/-- `Prestamo.generar_amortizacion`: the freshly generated schedule (the
method first deletes all existing rows; the pure value here is the list it
then inserts).  For periods `1..plazo`, starting balance `monto`, due dates
advanced month-by-month from `fecha_inicio`. -/
def generarAmortizacion (p : Prestamo) : Option (List Amortizacion) :=
  (cuotaMensual p).map fun c => genAux p c p.plazo 1 p.monto p.fechaInicio

/-- No-clamp condition: walking the generated rows from starting balance
`s`, each period's capital is covered by the balance before it (so the
defensive clamp to zero in step 4 never fires). -/
def sinClampB : ℚ → List Amortizacion → Bool
  | _, [] => true
  | s, r :: rs => decide (r.capital ≤ s) && sinClampB r.saldo rs

/-- Due date computed the way §4.3 of the spec words it (a second,
spec-side definition, kept only to compare the spec's sentence with the
code's month-by-month iteration): the start date advanced by `k` calendar
months in one step, keeping the same day-of-month whenever the target month
has that day, clamping otherwise. -/
def specDueDate (start : Fecha) (k : ℕ) : Fecha :=
  { year := start.year + (start.month - 1 + k) / 12
    month := (start.month - 1 + k) % 12 + 1
    day := min start.day (diasEnMes (start.year + (start.month - 1 + k) / 12)
                                    ((start.month - 1 + k) % 12 + 1)) }

/-- The annuity payment exactly as §4.2 of the spec words it (a second,
spec-side definition used for the refinement comparison of C5):
`A = P · [i·(1+i)^n] / [(1+i)^n − 1]`, rounded to two decimals with the
platform's standard rounding (Python `Decimal`'s default, half-to-even). -/
def pagoAnualidadSpec (P i : ℚ) (n : ℕ) : ℚ :=
  quantize2 (P * (i * (1 + i) ^ n) / ((1 + i) ^ n - 1))

/-! ## The payment form (`src/creditos/forms.py`, `AmortizacionForm`)

The form edits one persisted `Amortizacion` row (fields `pagado`,
`fecha_pago_real`).  Everything the validators read from the database is
collected in `FormCtx`. -/

/-- Database context read by `AmortizacionForm`:
* `numeroCuota`, `fechaInicio`: the edited row's period number and its
  loan's start date;
* `storedPagado`: the currently stored `pagado` of the edited row
  (`Amortizacion.objects.get(pk=...)`; the row is persisted, so
  `instance.pk` is set);
* `anterior`: the row with period `numeroCuota - 1` of the same loan, as
  `(pagado, fecha_pago_real)`, `none` if absent;
* `posteriorPagada`: whether some row of the same loan with a larger period
  number is currently paid;
* `hoy`: `date.today()`. -/
structure FormCtx where
  numeroCuota : ℕ
  fechaInicio : Fecha
  storedPagado : Bool
  anterior : Option (Bool × Option Fecha)
  posteriorPagada : Bool
  hoy : Fecha
deriving DecidableEq, Repr

/-- The distinct `ValidationError`s `AmortizacionForm` can raise. -/
inductive FormError where
  | faltaFecha
  | fechaFutura
  | fechaAnteriorInicio
  | fechaAnteriorPrevia (fp : Fecha)
  | anteriorImpaga (numero : ℕ)
  | posterioresPagadas
deriving DecidableEq, Repr

/-- `AmortizacionForm.clean_fecha_pago_real`: the field validator for the
supplied actual payment date.  A supplied date must not be in the future,
not precede the loan's start date and, when the previous installment is
paid with an actual date, not precede that date.  (The `self.instance.prestamo`
truthiness check always passes: the foreign key is non-nullable.) -/
def cleanFechaPagoReal (ctx : FormCtx) (fecha : Option Fecha) :
    Except FormError (Option Fecha) :=
  match fecha with
  | none => Except.ok none
  | some f =>
    if fechaLt ctx.hoy f then Except.error FormError.fechaFutura
    else if fechaLt f ctx.fechaInicio then Except.error FormError.fechaAnteriorInicio
    else if 1 < ctx.numeroCuota then
      match ctx.anterior with
      | some (true, some fp) =>
        if fechaLt f fp then Except.error (FormError.fechaAnteriorPrevia fp)
        else Except.ok (some f)
      | _ => Except.ok (some f)
    else Except.ok (some f)

/-- The value of `cleaned_data['fecha_pago_real']` that `clean` sees: the
validated date, or `none` when the field validator raised (Django drops the
field from `cleaned_data` on a field error). -/
def cleanedFechaField (ctx : FormCtx) (fecha : Option Fecha) : Option Fecha :=
  match cleanFechaPagoReal ctx fecha with
  | Except.ok f => f
  | Except.error _ => none

/-- The query `filter(prestamo=..., numero_cuota=k-1).first()` followed by
`cuota_anterior and not cuota_anterior.pagado`. -/
def anteriorImpagada (ctx : FormCtx) : Bool :=
  match ctx.anterior with
  | some (false, _) => true
  | _ => false

/-- `AmortizacionForm.clean`: raises (in source order) when a paid row has
no date, when marking paid with the previous installment unpaid, and when
unmarking a stored-paid row while a later installment is paid; on the
unpaid path any supplied date is cleared to `none`.  A raise aborts the
method, so at most one of these errors is produced. -/
def cleanForm (ctx : FormCtx) (pagado : Bool) (fecha : Option Fecha) :
    Except FormError (Bool × Option Fecha) :=
  if pagado = true ∧ fecha = none then Except.error FormError.faltaFecha
  else if pagado = true ∧ 1 < ctx.numeroCuota ∧ anteriorImpagada ctx = true then
    Except.error (FormError.anteriorImpaga (ctx.numeroCuota - 1))
  else if pagado = false ∧ ctx.storedPagado = true ∧ ctx.posteriorPagada = true then
    Except.error FormError.posterioresPagadas
  else Except.ok (pagado, if pagado = false ∧ fecha ≠ none then none else fecha)

/-- The full Django validation pipeline: field cleaners run first (in field
order; `pagado` has no custom cleaner), then `clean` runs on `cleaned_data`
even when a field failed; all errors are collected. -/
def formErrors (ctx : FormCtx) (pagado : Bool) (fecha : Option Fecha) :
    List FormError :=
  (match cleanFechaPagoReal ctx fecha with
   | Except.error e => [e]
   | Except.ok _ => []) ++
  (match cleanForm ctx pagado (cleanedFechaField ctx fecha) with
   | Except.error e => [e]
   | Except.ok _ => [])

/-- `form.is_valid()`. -/
def formIsValid (ctx : FormCtx) (pagado : Bool) (fecha : Option Fecha) : Bool :=
  decide (formErrors ctx pagado fecha = [])

/-- The `(pagado, fecha_pago_real)` pair the form would save, `none` when
the form is invalid. -/
def formOutput (ctx : FormCtx) (pagado : Bool) (fecha : Option Fecha) :
    Option (Bool × Option Fecha) :=
  if formIsValid ctx pagado fecha = true then
    (cleanForm ctx pagado (cleanedFechaField ctx fecha)).toOption
  else none

/-- `views.amortizacion_actualizar`: `form.save()` runs only when the form
is valid; otherwise the stored `(pagado, fecha_pago_real)` pair of the row
is left untouched. -/
def aplicarForm (ctx : FormCtx) (stored : Bool × Option Fecha) (pagado : Bool)
    (fecha : Option Fecha) : Bool × Option Fecha :=
  match formOutput ctx pagado fecha with
  | some out => out
  | none => stored

/-! ## The edit view (`src/creditos/views.py`, `prestamo_editar`) -/

/-- A loan with its stored installment rows (including any recorded payment
state). -/
structure SistemaEstado where
  prestamo : Prestamo
  cuotas : List Amortizacion
deriving DecidableEq, Repr

/-- The success path of `views.prestamo_editar`: on a valid POST the form
saves the edited loan fields and the view then calls
`prestamo.generar_amortizacion()`, which deletes every existing installment
row and inserts a freshly generated schedule. -/
def prestamoEditar (st : SistemaEstado) (nuevo : Prestamo) : Option SistemaEstado :=
  (generarAmortizacion nuevo).map fun rows => { prestamo := nuevo, cuotas := rows }

/-! ## Concrete loans used by witnesses and counterexamples -/

/-- The spec's worked scenario: P = 12000.00, R = 12.00 %, n = 12,
start 2024-01-15. -/
def escenarioPrueba : Prestamo :=
  { monto := 12000, tasaInteresAnual := 12,
    fechaInicio := { year := 2024, month := 1, day := 15 }, plazo := 12 }

/-- A loan inside the claimed domain of C1 (P > 0 in 2-decimal fixed point,
0 < R ≤ 100, 1 ≤ n ≤ 360) on which the zero-clamp fires early. -/
def pruebaC1 : Prestamo :=
  { monto := 1/10, tasaInteresAnual := 1/100,
    fechaInicio := { year := 2024, month := 1, day := 15 }, plazo := 12 }

/-- A loan starting on a month's 31st day, exercising the due-date clamp. -/
def pruebaC4 : Prestamo :=
  { monto := 12000, tasaInteresAnual := 12,
    fechaInicio := { year := 2024, month := 1, day := 31 }, plazo := 2 }

/-! ## Helper lemmas about the generator -/

lemma cents_zero : Cents 0 := cents_iff.mpr ⟨0, by norm_num⟩

lemma genAux_succ (p : Prestamo) (c : ℚ) (rem numero : ℕ) (saldo : ℚ) (fecha : Fecha) :
    genAux p c (rem + 1) numero saldo fecha =
      { numeroCuota := numero
        fechaPago := addOneMonth fecha
        cuota := if numero = p.plazo
          then capitalDe p c numero saldo + quantize2 (saldo * tasaMensual p)
          else c
        capital := capitalDe p c numero saldo
        interes := quantize2 (saldo * tasaMensual p)
        saldo := nuevoSaldo p c numero saldo
        pagado := false
        fechaPagoReal := none } ::
      genAux p c rem (numero + 1) (nuevoSaldo p c numero saldo) (addOneMonth fecha) := rfl

lemma genAux_length (p : Prestamo) (c : ℚ) :
    ∀ (rem numero : ℕ) (saldo : ℚ) (fecha : Fecha),
      (genAux p c rem numero saldo fecha).length = rem := by
  intro rem
  induction rem with
  | zero => intro numero saldo fecha; rfl
  | succ n ih =>
    intro numero saldo fecha
    rw [genAux_succ, List.length_cons, ih]

lemma capitalDe_nonneg {p : Prestamo} {c : ℚ} {numero : ℕ} {saldo : ℚ}
    (hs : 0 ≤ saldo) (hc : quantize2 (saldo * tasaMensual p) ≤ c) :
    0 ≤ capitalDe p c numero saldo := by
  unfold capitalDe
  split_ifs
  · exact hs
  · exact quantize2_nonneg (by linarith)

lemma capitalDe_cents {p : Prestamo} {c : ℚ} {numero : ℕ} {saldo : ℚ}
    (h : Cents saldo) : Cents (capitalDe p c numero saldo) := by
  unfold capitalDe
  split_ifs
  · exact h
  · exact cents_quantize2 _

lemma nuevoSaldo_nonneg (p : Prestamo) (c : ℚ) (numero : ℕ) (saldo : ℚ) :
    0 ≤ nuevoSaldo p c numero saldo := by
  unfold nuevoSaldo
  split_ifs with h
  · exact le_refl 0
  · linarith

lemma nuevoSaldo_cents (p : Prestamo) (c : ℚ) (numero : ℕ) (saldo : ℚ) :
    Cents (nuevoSaldo p c numero saldo) := by
  unfold nuevoSaldo
  split_ifs
  · exact cents_zero
  · exact cents_quantize2 _

lemma nuevoSaldo_le {p : Prestamo} {c : ℚ} {numero : ℕ} {saldo : ℚ}
    (hs : 0 ≤ saldo) (hcent : Cents saldo)
    (hcap : 0 ≤ capitalDe p c numero saldo) :
    nuevoSaldo p c numero saldo ≤ saldo := by
  unfold nuevoSaldo
  split_ifs with h
  · exact hs
  · calc quantize2 (saldo - capitalDe p c numero saldo)
        ≤ quantize2 saldo := quantize2_mono (by linarith)
      _ = saldo := quantize2_eq_self hcent

lemma nuevoSaldo_final {p : Prestamo} {c : ℚ} {numero : ℕ} {saldo : ℚ}
    (hnum : numero = p.plazo) : nuevoSaldo p c numero saldo = 0 := by
  unfold nuevoSaldo capitalDe
  rw [if_pos hnum, sub_self, quantize2_zero, if_neg (lt_irrefl 0)]

lemma nuevoSaldo_eq_sub {p : Prestamo} {c : ℚ} {numero : ℕ} {saldo : ℚ}
    (hcent : Cents saldo) (h : capitalDe p c numero saldo ≤ saldo) :
    nuevoSaldo p c numero saldo = saldo - capitalDe p c numero saldo := by
  have hq : quantize2 (saldo - capitalDe p c numero saldo) =
      saldo - capitalDe p c numero saldo :=
    quantize2_eq_self (cents_sub hcent (capitalDe_cents hcent))
  unfold nuevoSaldo
  rw [hq, if_neg (by linarith)]

lemma genAux_saldo_chain (p : Prestamo) (c : ℚ)
    (hc : ∀ s : ℚ, 0 ≤ s → s ≤ p.monto → quantize2 (s * tasaMensual p) ≤ c) :
    ∀ (rem numero : ℕ) (saldo : ℚ) (fecha : Fecha),
      0 ≤ saldo → saldo ≤ p.monto → Cents saldo →
      List.Chain (fun a b : ℚ => b ≤ a) saldo
        ((genAux p c rem numero saldo fecha).map (·.saldo)) := by
  intro rem
  induction rem with
  | zero =>
    intro numero saldo fecha _ _ _
    exact List.Chain.nil
  | succ n ih =>
    intro numero saldo fecha hs0 hsP hcent
    have hcap : 0 ≤ capitalDe p c numero saldo :=
      capitalDe_nonneg hs0 (hc saldo hs0 hsP)
    have h1 : nuevoSaldo p c numero saldo ≤ saldo := nuevoSaldo_le hs0 hcent hcap
    rw [genAux_succ, List.map_cons]
    exact List.Chain.cons h1
      (ih (numero + 1) (nuevoSaldo p c numero saldo) (addOneMonth fecha)
        (nuevoSaldo_nonneg p c numero saldo) (le_trans h1 hsP)
        (nuevoSaldo_cents p c numero saldo))

lemma chain_consecutive {α : Type} {r : α → α → Prop} :
    ∀ {l : List α} {a : α}, List.Chain r a l →
      ∀ (i : ℕ) (h : i + 1 < l.length),
        r (l.get ⟨i, Nat.lt_of_succ_lt h⟩) (l.get ⟨i + 1, h⟩) := by
  intro l
  induction l with
  | nil =>
    intro a _ i h
    simp at h
  | cons b t ih =>
    intro a hch i h
    rcases List.chain_cons.mp hch with ⟨_, hbt⟩
    cases i with
    | zero =>
      cases t with
      | nil => simp at h
      | cons c2 t2 =>
        rcases List.chain_cons.mp hbt with ⟨hbc, _⟩
        exact hbc
    | succ j =>
      exact ih hbt j (by simpa using h)

lemma getLast?_cons_of_ne_nil {α : Type} (a : α) {l : List α} (h : l ≠ []) :
    (a :: l).getLast? = l.getLast? := by
  cases l with
  | nil => exact absurd rfl h
  | cons b t => exact List.getLast?_cons_cons

lemma genAux_map_saldo_getLast (p : Prestamo) (c : ℚ) :
    ∀ (rem numero : ℕ) (saldo : ℚ) (fecha : Fecha),
      numero + rem = p.plazo + 1 → 1 ≤ rem →
      ((genAux p c rem numero saldo fecha).map (·.saldo)).getLast? = some 0 := by
  intro rem
  induction rem with
  | zero =>
    intro numero saldo fecha _ h2
    omega
  | succ n ih =>
    intro numero saldo fecha hsum _
    cases n with
    | zero =>
      have hnum : numero = p.plazo := by omega
      rw [genAux_succ, List.map_cons]
      rw [show genAux p c 0 (numero + 1) (nuevoSaldo p c numero saldo)
          (addOneMonth fecha) = [] from rfl]
      rw [List.map_nil, nuevoSaldo_final hnum]
      rfl
    | succ m =>
      rw [genAux_succ, List.map_cons]
      rw [getLast?_cons_of_ne_nil]
      · exact ih (numero + 1) (nuevoSaldo p c numero saldo) (addOneMonth fecha)
          (by omega) (by omega)
      · intro hnil
        have hlen := congrArg List.length hnil
        rw [List.length_map, genAux_length] at hlen
        simp at hlen

lemma genAux_sum_capital (p : Prestamo) (c : ℚ) :
    ∀ (rem numero : ℕ) (saldo : ℚ) (fecha : Fecha),
      numero + rem = p.plazo + 1 → 1 ≤ rem → Cents saldo →
      sinClampB saldo (genAux p c rem numero saldo fecha) = true →
      ((genAux p c rem numero saldo fecha).map (·.capital)).sum = saldo := by
  intro rem
  induction rem with
  | zero =>
    intro numero saldo fecha _ h2
    omega
  | succ n ih =>
    intro numero saldo fecha hsum _ hcent hclamp
    rw [genAux_succ] at hclamp
    rw [genAux_succ, List.map_cons, List.sum_cons]
    rw [show sinClampB saldo
        ({ numeroCuota := numero
           fechaPago := addOneMonth fecha
           cuota := if numero = p.plazo
             then capitalDe p c numero saldo + quantize2 (saldo * tasaMensual p)
             else c
           capital := capitalDe p c numero saldo
           interes := quantize2 (saldo * tasaMensual p)
           saldo := nuevoSaldo p c numero saldo
           pagado := false
           fechaPagoReal := none } ::
         genAux p c n (numero + 1) (nuevoSaldo p c numero saldo) (addOneMonth fecha)) =
        (decide (capitalDe p c numero saldo ≤ saldo) &&
          sinClampB (nuevoSaldo p c numero saldo)
            (genAux p c n (numero + 1) (nuevoSaldo p c numero saldo)
              (addOneMonth fecha))) from rfl] at hclamp
    rw [Bool.and_eq_true, decide_eq_true_eq] at hclamp
    obtain ⟨hcap_le, hclamp2⟩ := hclamp
    cases n with
    | zero =>
      have hnum : numero = p.plazo := by omega
      show capitalDe p c numero saldo + (0 : ℚ) = saldo
      unfold capitalDe
      rw [if_pos hnum, add_zero]
    | succ m =>
      have hsub : nuevoSaldo p c numero saldo = saldo - capitalDe p c numero saldo :=
        nuevoSaldo_eq_sub hcent hcap_le
      have h2 := ih (numero + 1) (nuevoSaldo p c numero saldo) (addOneMonth fecha)
        (by omega) (by omega) (nuevoSaldo_cents p c numero saldo) hclamp2
      show capitalDe p c numero saldo +
        ((genAux p c (m + 1) (numero + 1) (nuevoSaldo p c numero saldo)
          (addOneMonth fecha)).map (·.capital)).sum = saldo
      rw [h2, hsub]
      ring

lemma genAux_fecha (p : Prestamo) (c : ℚ) :
    ∀ (rem numero : ℕ) (saldo : ℚ) (fecha : Fecha) (k : ℕ)
      (hk : k < (genAux p c rem numero saldo fecha).length),
      ((genAux p c rem numero saldo fecha).get ⟨k, hk⟩).fechaPago =
        addOneMonth^[k + 1] fecha := by
  intro rem
  induction rem with
  | zero =>
    intro numero saldo fecha k hk
    rw [genAux_length] at hk
    omega
  | succ n ih =>
    intro numero saldo fecha k hk
    cases k with
    | zero =>
      rw [Function.iterate_one]
      rfl
    | succ j =>
      have hk2 : j < (genAux p c n (numero + 1) (nuevoSaldo p c numero saldo)
          (addOneMonth fecha)).length := by
        rw [genAux_length]
        rw [genAux_length] at hk
        omega
      have h2 := ih (numero + 1) (nuevoSaldo p c numero saldo) (addOneMonth fecha) j hk2
      rw [Function.iterate_succ_apply]
      exact h2

lemma genAux_pagado (p : Prestamo) (c : ℚ) :
    ∀ (rem numero : ℕ) (saldo : ℚ) (fecha : Fecha) (r : Amortizacion),
      r ∈ genAux p c rem numero saldo fecha →
      r.pagado = false ∧ r.fechaPagoReal = none := by
  intro rem
  induction rem with
  | zero =>
    intro numero saldo fecha r hr
    simp [genAux] at hr
  | succ n ih =>
    intro numero saldo fecha r hr
    rw [genAux_succ] at hr
    rcases List.mem_cons.mp hr with h | h
    · rw [h]
      exact ⟨rfl, rfl⟩
    · exact ih (numero + 1) (nuevoSaldo p c numero saldo) (addOneMonth fecha) r h

lemma cuota_ge_interes (p : Prestamo) (hP : 0 < p.monto)
    (hR : 0 < p.tasaInteresAnual) (hn : 1 ≤ p.plazo) :
    ∀ s : ℚ, 0 ≤ s → s ≤ p.monto →
      quantize2 (s * tasaMensual p) ≤
        quantize2 (p.monto * (tasaMensual p * (1 + tasaMensual p) ^ p.plazo) /
          ((1 + tasaMensual p) ^ p.plazo - 1)) := by
  intro s hs0 hsP
  have hi : 0 < tasaMensual p := by
    unfold tasaMensual
    positivity
  have hu : 1 < (1 + tasaMensual p) ^ p.plazo :=
    one_lt_pow₀ (by linarith) (by omega)
  apply quantize2_mono
  have h1 : s * tasaMensual p ≤ p.monto * tasaMensual p :=
    mul_le_mul_of_nonneg_right hsP hi.le
  have h2 : p.monto * tasaMensual p ≤
      p.monto * (tasaMensual p * (1 + tasaMensual p) ^ p.plazo) /
        ((1 + tasaMensual p) ^ p.plazo - 1) := by
    rw [le_div_iff₀ (by linarith)]
    have hPi : 0 ≤ p.monto * tasaMensual p := by positivity
    nlinarith
  linarith

lemma generar_eq (p : Prestamo) (hP : 0 < p.monto) (hR : 0 < p.tasaInteresAnual)
    (hn : 1 ≤ p.plazo) :
    generarAmortizacion p =
      some (genAux p
        (quantize2 (p.monto * (tasaMensual p * (1 + tasaMensual p) ^ p.plazo) /
          ((1 + tasaMensual p) ^ p.plazo - 1)))
        p.plazo 1 p.monto p.fechaInicio) := by
  have hi : 0 < tasaMensual p := by
    unfold tasaMensual
    positivity
  unfold generarAmortizacion cuotaMensual
  rw [if_neg, if_neg]
  · rfl
  · exact hi.ne'
  · push_neg
    exact ⟨hP.ne', hR.ne', by omega⟩

lemma generar_some {p : Prestamo} {rows : List Amortizacion}
    (h : generarAmortizacion p = some rows) :
    ∃ c, cuotaMensual p = some c ∧
      rows = genAux p c p.plazo 1 p.monto p.fechaInicio := by
  unfold generarAmortizacion at h
  cases hcm : cuotaMensual p with
  | none =>
    rw [hcm] at h
    simp at h
  | some c =>
    rw [hcm] at h
    simp only [Option.map_some'] at h
    exact ⟨c, rfl, (Option.some.inj h).symm⟩

/-! ## Claim theorems -/

/-- C2: for every valid loan input (P > 0 in 2-decimal fixed point,
0 < R ≤ 100, 1 ≤ n ≤ 360) the balances stored in the generated schedule
are monotonically non-increasing in the period number, and the balance
stored for the final period is exactly 0. -/
theorem c2_balance_monotone_final_zero (p : Prestamo)
    (hP : 0 < p.monto) (hPc : Cents p.monto)
    (hR : 0 < p.tasaInteresAnual) (hR2 : p.tasaInteresAnual ≤ 100)
    (hn : 1 ≤ p.plazo) (hn2 : p.plazo ≤ 360)
    (rows : List Amortizacion) (hrows : generarAmortizacion p = some rows) :
    (∀ (i : ℕ) (h : i + 1 < (rows.map (·.saldo)).length),
        (rows.map (·.saldo)).get ⟨i + 1, h⟩ ≤
          (rows.map (·.saldo)).get ⟨i, Nat.lt_of_succ_lt h⟩) ∧
    (rows.map (·.saldo)).getLast? = some 0 := by
  rw [generar_eq p hP hR hn] at hrows
  obtain rfl := Option.some.inj hrows
  constructor
  · intro i h
    exact chain_consecutive
      (genAux_saldo_chain p _ (cuota_ge_interes p hP hR hn)
        p.plazo 1 p.monto p.fechaInicio hP.le (le_refl _) hPc) i h
  · exact genAux_map_saldo_getLast p _ p.plazo 1 p.monto p.fechaInicio
      (by omega) (by omega)

theorem c2_witness :
    (((generarAmortizacion escenarioPrueba).getD []).map (·.saldo)).getLast? =
      some 0 :=
  (c2_balance_monotone_final_zero escenarioPrueba (by decide) (by decide)
    (by decide) (by decide) (by decide) (by decide)
    ((generarAmortizacion escenarioPrueba).getD []) (by decide)).2

/-- C1 (amended): for every loan with P > 0 in 2-decimal fixed point,
0 < R ≤ 100 and 1 ≤ n ≤ 360, provided the defensive clamp to zero never
fires (each period's capital is covered by the balance before it,
`sinClampB`), the capital portions of the generated schedule sum to P
exactly, the final period's capital being the full balance remaining before
that period (= P minus all earlier capital). -/
theorem c1_capital_sum (p : Prestamo)
    (hP : 0 < p.monto) (hPc : Cents p.monto)
    (hR : 0 < p.tasaInteresAnual) (hR2 : p.tasaInteresAnual ≤ 100)
    (hn : 1 ≤ p.plazo) (hn2 : p.plazo ≤ 360)
    (rows : List Amortizacion) (hrows : generarAmortizacion p = some rows)
    (hnc : sinClampB p.monto rows = true) :
    ((rows.map (·.capital)).sum = p.monto) ∧
    (∀ h : rows ≠ [],
        (rows.getLast h).capital = p.monto - (rows.dropLast.map (·.capital)).sum) := by
  rw [generar_eq p hP hR hn] at hrows
  obtain rfl := Option.some.inj hrows
  have hsum := genAux_sum_capital p _ p.plazo 1 p.monto p.fechaInicio
    (by omega) (by omega) hPc hnc
  refine ⟨hsum, ?_⟩
  intro hne
  set rows := genAux p _ p.plazo 1 p.monto p.fechaInicio with hrows2
  have hsplit := List.dropLast_append_getLast hne
  have h3 : ((rows.dropLast ++ [rows.getLast hne]).map (·.capital)).sum = p.monto := by
    rw [hsplit]
    exact hsum
  simp only [List.map_append, List.sum_append, List.map_cons, List.map_nil,
    List.sum_cons, List.sum_nil] at h3
  linarith

theorem c1_witness :
    (((generarAmortizacion escenarioPrueba).getD []).map (·.capital)).sum =
      escenarioPrueba.monto :=
  (c1_capital_sum escenarioPrueba (by decide) (by decide) (by decide) (by decide)
    (by decide) (by decide) ((generarAmortizacion escenarioPrueba).getD [])
    (by decide) (by decide)).1

set_option maxRecDepth 4000 in
/-- C1 counterexample: the loan P = 0.10, R = 0.01 %, n = 12 lies in the
claim's stated domain (P > 0 in 2-decimal fixed point, 0 < R ≤ 100,
1 ≤ n ≤ 360), yet the generated capital portions sum to 0.11 ≠ P: the
monthly payment rounds to 0.01, the balance reaches 0 after period 10, and
the defensive clamp lets period 11 book another 0.01 of capital. -/
theorem c1_counterexample :
    (0 : ℚ) < pruebaC1.monto ∧ Cents pruebaC1.monto ∧
    (0 : ℚ) < pruebaC1.tasaInteresAnual ∧ pruebaC1.tasaInteresAnual ≤ 100 ∧
    1 ≤ pruebaC1.plazo ∧ pruebaC1.plazo ≤ 360 ∧
    ((generarAmortizacion pruebaC1).map fun rows => (rows.map (·.capital)).sum) =
      some (11/100) ∧
    (11/100 : ℚ) ≠ pruebaC1.monto := by decide

set_option maxRecDepth 4000 in
/-- C3 counterexample: for P = 12000.00, R = 12.00 %, n = 12 the code's
fixed payment is 1066.19, not ≈ 1065.03, and installment 1 has capital
946.19 and balance 11053.81, not 945.03 and 11054.97. -/
theorem c3_counterexample :
    cuotaMensual escenarioPrueba = some (106619/100) ∧
    (106619/100 : ℚ) ≠ 106503/100 ∧
    ((generarAmortizacion escenarioPrueba).map fun rows =>
        rows.head?.map fun r => (r.capital, r.saldo)) =
      some (some (94619/100, 1105381/100)) ∧
    (94619/100 : ℚ) ≠ 94503/100 ∧
    (1105381/100 : ℚ) ≠ 1105497/100 := by decide

set_option maxRecDepth 4000 in
/-- C3 (amended): for P = 12000.00, R = 12.00 %, n = 12,
start = 2024-01-15: the periodic rate is 0.01 exactly; the fixed monthly
payment is 1066.19; installment 1 has interest 120.00, capital 946.19 and
balance 11053.81; and installment 12's capital (1055.58) equals the balance
remaining after installment 11 exactly, leaving balance 0.00. -/
theorem c3_scenario_values :
    tasaMensual escenarioPrueba = 1/100 ∧
    cuotaMensual escenarioPrueba = some (106619/100) ∧
    ((generarAmortizacion escenarioPrueba).map fun rows =>
        rows.head?.map fun r => (r.interes, r.capital, r.saldo)) =
      some (some (120, 94619/100, 1105381/100)) ∧
    ((generarAmortizacion escenarioPrueba).map fun rows =>
        rows.getLast?.map fun r => (r.numeroCuota, r.capital, r.interes, r.saldo)) =
      some (some (12, 105558/100, 1056/100, 0)) ∧
    ((generarAmortizacion escenarioPrueba).map fun rows =>
        (rows[10]?).map (·.saldo)) = some (some (105558/100)) := by decide

/-- C4 counterexample: for a loan starting 2024-01-31 the code's cumulative
month-by-month advance puts installment 2 on 2024-03-29 (the day was
clamped to 29 in February and never restored), while the claim's
"start + k months keeping the day-of-month" puts it on 2024-03-31. -/
theorem c4_counterexample :
    ((generarAmortizacion pruebaC4).map fun rows => rows.map (·.fechaPago)) =
      some [{ year := 2024, month := 2, day := 29 },
            { year := 2024, month := 3, day := 29 }] ∧
    specDueDate pruebaC4.fechaInicio 2 = { year := 2024, month := 3, day := 31 } ∧
    ({ year := 2024, month := 3, day := 29 } : Fecha) ≠
      { year := 2024, month := 3, day := 31 } := by decide

/-- C4 (amended): the due date of installment k (row index k-1) is the
start date advanced k times by one calendar month, with the day clamped to
the target month's length at each single step (dateutil
`relativedelta(months=1)` applied cumulatively) — so a clamp in a short
month persists in later months. -/
theorem c4_due_dates (p : Prestamo) (rows : List Amortizacion)
    (h : generarAmortizacion p = some rows) (k : ℕ) (hk : k < rows.length) :
    (rows.get ⟨k, hk⟩).fechaPago = addOneMonth^[k + 1] p.fechaInicio := by
  obtain ⟨c, _, rfl⟩ := generar_some h
  exact genAux_fecha p c p.plazo 1 p.monto p.fechaInicio k hk

theorem c4_witness :
    (((generarAmortizacion escenarioPrueba).getD []).get ⟨0, by decide⟩).fechaPago =
      addOneMonth^[0 + 1] escenarioPrueba.fechaInicio :=
  c4_due_dates escenarioPrueba ((generarAmortizacion escenarioPrueba).getD [])
    (by decide) 0 (by decide)

/-- C5: for every P > 0, R > 0 (hence periodic rate i = R/12/100 > 0) and
n ≥ 1, the computed fixed payment is exactly the spec's annuity formula
P·[i·(1+i)^n]/[(1+i)^n − 1] rounded to two decimal places with the
platform's standard rounding (Python `Decimal`'s default half-to-even). -/
theorem c5_payment_formula (p : Prestamo) (hP : 0 < p.monto)
    (hR : 0 < p.tasaInteresAnual) (hn : 1 ≤ p.plazo) :
    cuotaMensual p =
      some (pagoAnualidadSpec p.monto (p.tasaInteresAnual / 12 / 100) p.plazo) := by
  have hi : 0 < tasaMensual p := by
    unfold tasaMensual
    positivity
  unfold cuotaMensual pagoAnualidadSpec
  rw [if_neg, if_neg]
  · rfl
  · exact hi.ne'
  · push_neg
    exact ⟨hP.ne', hR.ne', by omega⟩

theorem c5_witness :
    cuotaMensual escenarioPrueba =
      some (pagoAnualidadSpec escenarioPrueba.monto
        (escenarioPrueba.tasaInteresAnual / 12 / 100) escenarioPrueba.plazo) :=
  c5_payment_formula escenarioPrueba (by decide) (by decide) (by decide)

/-- C9: for every annual rate 0 < R ≤ 100 representable in 2-decimal fixed
point, the derived periodic rate is exactly R / 12 / 100 (equivalently,
multiplying it back by 1200 recovers R exactly): the property applies no
quantization. -/
theorem c9_periodic_rate_exact (p : Prestamo) (hR : 0 < p.tasaInteresAnual)
    (hR2 : p.tasaInteresAnual ≤ 100) (hRc : Cents p.tasaInteresAnual) :
    tasaMensual p = p.tasaInteresAnual / 12 / 100 ∧
    tasaMensual p * 1200 = p.tasaInteresAnual := by
  refine ⟨rfl, ?_⟩
  unfold tasaMensual
  rw [div_div]
  norm_num

theorem c9_witness :
    tasaMensual escenarioPrueba * 1200 = escenarioPrueba.tasaInteresAnual :=
  (c9_periodic_rate_exact escenarioPrueba (by decide) (by decide) (by decide)).2

/-- C10: every successful edit of a loan — including one that changes
nothing (`nuevo` may equal the stored loan) — replaces the whole schedule
with a freshly generated one in which every row has `pagado = false` and
`fecha_pago_real = none`; the result does not depend on the previously
stored rows, so all recorded payment state is destroyed. -/
theorem c10_edit_destroys_payment_state (st : SistemaEstado) (nuevo : Prestamo)
    (rows : List Amortizacion) (h : generarAmortizacion nuevo = some rows) :
    prestamoEditar st nuevo = some { prestamo := nuevo, cuotas := rows } ∧
    (∀ r ∈ rows, r.pagado = false ∧ r.fechaPagoReal = none) ∧
    (∀ st2 : SistemaEstado, prestamoEditar st2 nuevo = prestamoEditar st nuevo) := by
  refine ⟨?_, ?_, fun st2 => rfl⟩
  · unfold prestamoEditar
    rw [h]
    rfl
  · intro r hr
    obtain ⟨c, _, rfl⟩ := generar_some h
    exact genAux_pagado nuevo c nuevo.plazo 1 nuevo.monto nuevo.fechaInicio r hr

def estadoPagado : SistemaEstado :=
  { prestamo := escenarioPrueba
    cuotas := [{ numeroCuota := 1, fechaPago := { year := 2024, month := 2, day := 15 },
                 cuota := 106619/100, capital := 94619/100, interes := 120,
                 saldo := 1105381/100, pagado := true,
                 fechaPagoReal := some { year := 2024, month := 2, day := 20 } }] }

theorem c10_witness :
    prestamoEditar estadoPagado escenarioPrueba =
      some { prestamo := escenarioPrueba,
             cuotas := (generarAmortizacion escenarioPrueba).getD [] } :=
  (c10_edit_destroys_payment_state estadoPagado escenarioPrueba
    ((generarAmortizacion escenarioPrueba).getD []) (by decide)).1

/-! ## Claim theorems about the payment form -/

/-- Context for C6: editing installment 2 while installment 1 exists and is
unpaid. -/
def ctxC6 : FormCtx :=
  { numeroCuota := 2, fechaInicio := { year := 2025, month := 1, day := 1 },
    storedPagado := false, anterior := some (false, none),
    posteriorPagada := false, hoy := { year := 2025, month := 6, day := 1 } }

/-- Context for C7: installment 2 is stored as paid, installment 1 is paid
on 2025-03-10, and no later installment is paid. -/
def ctxC7 : FormCtx :=
  { numeroCuota := 2, fechaInicio := { year := 2025, month := 1, day := 1 },
    storedPagado := true,
    anterior := some (true, some { year := 2025, month := 3, day := 10 }),
    posteriorPagada := false, hoy := { year := 2025, month := 6, day := 1 } }

/-- Context for C8: installment 2, prior installment paid on 2025-03-10. -/
def ctxC8 : FormCtx :=
  { numeroCuota := 2, fechaInicio := { year := 2025, month := 1, day := 1 },
    storedPagado := false,
    anterior := some (true, some { year := 2025, month := 3, day := 10 }),
    posteriorPagada := false, hoy := { year := 2025, month := 6, day := 1 } }

/-- C6 (amended): marking installment k > 1 paid while installment k−1
exists and is unpaid always fails validation — whatever date is supplied —
and leaves the stored state unchanged; the error naming the blocking prior
installment (k−1) is guaranteed whenever the supplied date passes the
date-field checks (with a missing or rejected date, the failure is the
missing-date error instead, raised before the sequencing check). -/
theorem c6_prior_unpaid_blocks (ctx : FormCtx) (fecha : Option Fecha)
    (stored : Bool × Option Fecha) (d : Option Fecha)
    (hk : 1 < ctx.numeroCuota) (hprev : ctx.anterior = some (false, d)) :
    formIsValid ctx true fecha = false ∧
    aplicarForm ctx stored true fecha = stored ∧
    (∀ f : Fecha, cleanFechaPagoReal ctx fecha = Except.ok (some f) →
        FormError.anteriorImpaga (ctx.numeroCuota - 1) ∈ formErrors ctx true fecha) := by
  have hant : anteriorImpagada ctx = true := by
    unfold anteriorImpagada
    rw [hprev]
  have hcf : ∀ f : Fecha, cleanForm ctx true (some f) =
      Except.error (FormError.anteriorImpaga (ctx.numeroCuota - 1)) := by
    intro f
    unfold cleanForm
    rw [if_neg (by simp), if_pos ⟨rfl, hk, hant⟩]
  have hcfn : cleanForm ctx true none = Except.error FormError.faltaFecha := by
    unfold cleanForm
    rw [if_pos ⟨rfl, rfl⟩]
  have hne : formErrors ctx true fecha ≠ [] := by
    unfold formErrors
    cases hod : cleanedFechaField ctx fecha with
    | none =>
      rw [hcfn]
      intro hnil
      have hl := congrArg List.length hnil
      simp at hl
    | some f =>
      rw [hcf f]
      intro hnil
      have hl := congrArg List.length hnil
      simp at hl
  have hval : formIsValid ctx true fecha = false := by
    unfold formIsValid
    exact decide_eq_false hne
  refine ⟨hval, ?_, ?_⟩
  · unfold aplicarForm formOutput
    rw [hval]
    simp
  · intro f hok
    have hod : cleanedFechaField ctx fecha = some f := by
      unfold cleanedFechaField
      rw [hok]
    unfold formErrors
    rw [hok, hod, hcf f]
    simp

/-- C6 counterexample: with period 2's predecessor unpaid, `pagado` checked
and no payment date supplied, the form fails with the missing-date error
only: no error naming the blocking prior installment is raised, refuting
"fails with a validation error naming the blocking prior installment,
regardless of the supplied payment date". -/
theorem c6_counterexample :
    1 < ctxC6.numeroCuota ∧ ctxC6.anterior = some (false, none) ∧
    formIsValid ctxC6 true none = false ∧
    formErrors ctxC6 true none = [FormError.faltaFecha] ∧
    ¬ FormError.anteriorImpaga 1 ∈ formErrors ctxC6 true none := by decide

theorem c6_witness :
    formIsValid ctxC6 true (some { year := 2025, month := 3, day := 5 }) = false :=
  (c6_prior_unpaid_blocks ctxC6 (some { year := 2025, month := 3, day := 5 })
    (false, none) none (by decide) (by decide)).1

/-- C7 (amended): for an installment stored as paid, the unpaid transition
is valid iff no later installment of the loan is paid AND any supplied date
passes the date-field checks (which run on the raw input before the
clearing); on success the saved state is `pagado = false` with the actual
date cleared to `none`, even when a stale date was supplied. -/
theorem c7_unmark_paid (ctx : FormCtx) (fecha : Option Fecha)
    (hpag : ctx.storedPagado = true) :
    (formIsValid ctx false fecha = true ↔
      (ctx.posteriorPagada = false ∧
        (cleanFechaPagoReal ctx fecha).toOption.isSome = true)) ∧
    (formIsValid ctx false fecha = true →
      formOutput ctx false fecha = some (false, none)) := by
  have hclean : ∀ od : Option Fecha, cleanForm ctx false od =
      if ctx.posteriorPagada = true then Except.error FormError.posterioresPagadas
      else Except.ok (false, none) := by
    intro od
    unfold cleanForm
    rw [if_neg (by simp), if_neg (by simp)]
    by_cases hpp : ctx.posteriorPagada = true
    · rw [if_pos ⟨rfl, hpag, hpp⟩, if_pos hpp]
    · rw [if_neg (by simp [hpp]), if_neg hpp]
      cases od <;> simp
  have hiff : formIsValid ctx false fecha = true ↔
      (ctx.posteriorPagada = false ∧
        (cleanFechaPagoReal ctx fecha).toOption.isSome = true) := by
    constructor
    · intro hv
      have hl : formErrors ctx false fecha = [] := of_decide_eq_true hv
      unfold formErrors at hl
      rcases List.append_eq_nil.mp hl with ⟨h1, h2⟩
      constructor
      · rw [hclean (cleanedFechaField ctx fecha)] at h2
        by_cases hpp : ctx.posteriorPagada = true
        · rw [if_pos hpp] at h2
          simp at h2
        · cases hb : ctx.posteriorPagada with
          | false => rfl
          | true => exact absurd hb hpp
      · cases hfe : cleanFechaPagoReal ctx fecha with
        | ok v =>
          simp [Except.toOption]
        | error e =>
          rw [hfe] at h1
          simp at h1
    · rintro ⟨hpp, hsome⟩
      unfold formIsValid
      apply decide_eq_true
      unfold formErrors
      obtain ⟨v, hfe⟩ : ∃ v, cleanFechaPagoReal ctx fecha = Except.ok v := by
        cases hfe2 : cleanFechaPagoReal ctx fecha with
        | ok v => exact ⟨v, rfl⟩
        | error e =>
          rw [hfe2] at hsome
          simp [Except.toOption] at hsome
      rw [hfe, hclean, if_neg (by simp [hpp])]
      simp
  refine ⟨hiff, ?_⟩
  intro hv
  obtain ⟨hpp, _⟩ := hiff.mp hv
  unfold formOutput
  rw [if_pos hv, hclean, if_neg (by simp [hpp])]
  rfl

/-- C7 counterexample: a stored-paid installment (period 2) with no later
installment paid, unmarked while supplying a stale date (2025-03-05) that
precedes the prior installment's payment date (2025-03-10): the form fails
with the date-ordering field error, refuting "fails ... exactly when some
installment with a higher period number is currently paid". -/
theorem c7_counterexample :
    ctxC7.storedPagado = true ∧ ctxC7.posteriorPagada = false ∧
    formIsValid ctxC7 false (some { year := 2025, month := 3, day := 5 }) = false ∧
    formErrors ctxC7 false (some { year := 2025, month := 3, day := 5 }) =
      [FormError.fechaAnteriorPrevia { year := 2025, month := 3, day := 10 }] := by
  decide

theorem c7_witness :
    formIsValid ctxC7 false none = true :=
  (c7_unmark_paid ctxC7 none (by decide)).1.mpr (by decide)

/-- C8: a supplied actual payment date is accepted by
`clean_fecha_pago_real` iff it is not after today, not before the loan's
start date and, when period k > 1 and installment k−1 is paid with an
actual date, not before that date; whenever it is rejected the form is
invalid (for any `pagado` value) and the stored state is unchanged. -/
theorem c8_date_guards (ctx : FormCtx) (f : Fecha) :
    ((cleanFechaPagoReal ctx (some f)).toOption = some (some f) ↔
      (fechaLt ctx.hoy f = false ∧ fechaLt f ctx.fechaInicio = false ∧
        ∀ fp : Fecha, 1 < ctx.numeroCuota → ctx.anterior = some (true, some fp) →
          fechaLt f fp = false)) ∧
    (∀ (pagado : Bool) (stored : Bool × Option Fecha),
        (cleanFechaPagoReal ctx (some f)).toOption = none →
          formIsValid ctx pagado (some f) = false ∧
          aplicarForm ctx stored pagado (some f) = stored) := by
  constructor
  · constructor
    · intro hacc
      refine ⟨?_, ?_, ?_⟩
      · cases hb : fechaLt ctx.hoy f with
        | false => rfl
        | true =>
          exfalso
          unfold cleanFechaPagoReal at hacc
          simp [hb, Except.toOption] at hacc
      · cases hb : fechaLt f ctx.fechaInicio with
        | false => rfl
        | true =>
          exfalso
          unfold cleanFechaPagoReal at hacc
          cases ha : fechaLt ctx.hoy f <;> simp [ha, hb, Except.toOption] at hacc
      · intro fp hk hant
        cases hb : fechaLt f fp with
        | false => rfl
        | true =>
          exfalso
          unfold cleanFechaPagoReal at hacc
          cases ha : fechaLt ctx.hoy f <;>
            cases hb2 : fechaLt f ctx.fechaInicio <;>
              simp [ha, hb2, hk, hant, hb, Except.toOption] at hacc
    · rintro ⟨h1, h2, h3⟩
      unfold cleanFechaPagoReal
      by_cases hk : 1 < ctx.numeroCuota
      · rcases hant : ctx.anterior with _ | ⟨b, od⟩
        · simp [h1, h2, hk, Except.toOption]
        · cases b with
          | false => simp [h1, h2, hk, hant, Except.toOption]
          | true =>
            cases od with
            | none => simp [h1, h2, hk, hant, Except.toOption]
            | some fp => simp [h1, h2, hk, hant, h3 fp hk hant, Except.toOption]
      · simp [h1, h2, hk, Except.toOption]
  · intro pagado stored hnone
    obtain ⟨e, he⟩ : ∃ e, cleanFechaPagoReal ctx (some f) = Except.error e := by
      cases hfe : cleanFechaPagoReal ctx (some f) with
      | ok v =>
        rw [hfe] at hnone
        simp [Except.toOption] at hnone
      | error e => exact ⟨e, rfl⟩
    have hfv : formIsValid ctx pagado (some f) = false := by
      unfold formIsValid
      apply decide_eq_false
      intro hnil
      unfold formErrors at hnil
      rw [he] at hnil
      have hl := congrArg List.length hnil
      simp at hl
    refine ⟨hfv, ?_⟩
    unfold aplicarForm formOutput
    rw [hfv]
    simp

theorem c8_witness :
    formIsValid ctxC8 true (some { year := 2025, month := 7, day := 1 }) = false :=
  ((c8_date_guards ctxC8 { year := 2025, month := 7, day := 1 }).2 true (false, none)
    (by decide)).1
